import Mathlib

/-
Shallow embedding of the LeadLens lead-scoring core:
  - src/run.py        : _compute_lead_score, quick_site_check, classify_lead
  - src/scraper/maps_scraper.py : _valid_website_href

Python dynamic values relevant to the scoring code are modelled by `PyVal`
(absent key / None, strings, numbers as exact rationals, booleans).  Python
float arithmetic is modelled exactly over ℚ; the operations the scorer uses
(divide by 5/10/100, multiply by 10/20, add, min/max, compare to literals)
are exact on the inputs the claims mention, so no binary-rounding behaviour
is load-bearing here.  Code paths that raise a Python exception (TypeError /
AttributeError / ValueError) are modelled with `Except Unit`.
-/

deriving instance DecidableEq for Except

attribute [local semireducible] Rat.add Rat.mul Rat.inv Rat.sub

namespace LeadLens

/-- Python value as seen by `run.py`: a missing key or `None`, a string, a
number (int or float, modelled exactly as a rational), or a boolean. -/
inductive PyVal where
  | none : PyVal
  | str : String → PyVal
  | num : ℚ → PyVal
  | bool : Bool → PyVal
deriving DecidableEq

/-- Python truthiness for the modelled values. -/
def truthy : PyVal → Bool
  | PyVal.none => false
  | PyVal.str s => s ≠ ""
  | PyVal.num q => q ≠ 0
  | PyVal.bool b => b

/-- Python `a or b`: the left operand when truthy, otherwise the right. -/
def pyOr (a b : PyVal) : PyVal := if truthy a then a else b

/-- Python substring test `pat in s` (empty pattern is contained in anything). -/
def strContains (s pat : String) : Bool := decide (pat.data <:+: s.data)

/-- Python `s.startswith(pat)`. -/
def strStartsWith (s pat : String) : Bool := decide (pat.data <+: s.data)

/-- Python `s.endswith(pat)`. -/
def strEndsWith (s pat : String) : Bool := decide (pat.data <:+ s.data)

/-- Python `s.lower()` (ASCII letters; the keyword tables are all ASCII). -/
def strLower (s : String) : String := ⟨s.data.map Char.toLower⟩

/-- Python `s.strip()` restricted to the ASCII whitespace the scraper can
produce (space, tab, CR, LF). -/
def strTrim (s : String) : String :=
  ⟨((s.data.dropWhile Char.isWhitespace).reverse.dropWhile Char.isWhitespace).reverse⟩

/-- Python `(v or "")` followed by a string method (`.lower()`/`.strip()`):
a falsy value becomes `""`, a truthy string is kept, and a truthy non-string
raises `AttributeError` (modelled as `Except.error`). -/
def pyStrOrEmpty (v : PyVal) : Except Unit String :=
  if truthy v then
    match v with
    | PyVal.str s => Except.ok s
    | _ => Except.error ()
  else Except.ok ""

/-- Decimal digit accumulator for the numeric-literal parsers. -/
def digitsToNat (l : List Char) : ℕ := l.foldl (fun a c => 10 * a + (c.toNat - 48)) 0

/-- Python `float(s)` on plain decimal literals: optional surrounding
whitespace, optional sign, digits with at most one point and at least one
digit.  Exotic literals (exponents, inf/nan, underscores) are not produced
by the scraper and are left unmodelled; they would parse to `error` here. -/
def parseDecimal (s : String) : Option ℚ :=
  let t := (strTrim s).data
  let sb : ℚ × List Char :=
    match t with
    | '-' :: rest => (-1, rest)
    | '+' :: rest => (1, rest)
    | _ => (1, t)
  match sb.2.splitOn '.' with
  | [w] =>
      if w ≠ [] ∧ w.all Char.isDigit then Option.some (sb.1 * digitsToNat w)
      else Option.none
  | [w, f] =>
      if (w ≠ [] ∨ f ≠ []) ∧ w.all Char.isDigit ∧ f.all Char.isDigit then
        Option.some (sb.1 * ((digitsToNat w : ℚ) + (digitsToNat f : ℚ) / (10 : ℚ) ^ f.length))
      else Option.none
  | _ => Option.none

/-- Python `int(s)` on plain integer literals. -/
def parseIntStr (s : String) : Option ℤ :=
  let t := (strTrim s).data
  let sb : ℤ × List Char :=
    match t with
    | '-' :: rest => (-1, rest)
    | '+' :: rest => (1, rest)
    | _ => (1, t)
  if sb.2 ≠ [] ∧ sb.2.all Char.isDigit then Option.some (sb.1 * digitsToNat sb.2)
  else Option.none

/-- Python `float(v)`: numbers pass through, booleans become 0/1, strings are
parsed (failure raises `ValueError`), `None` raises `TypeError`. -/
def pyFloat : PyVal → Except Unit ℚ
  | PyVal.num q => Except.ok q
  | PyVal.bool b => Except.ok (if b then 1 else 0)
  | PyVal.str s =>
      match parseDecimal s with
      | Option.some q => Except.ok q
      | Option.none => Except.error ()
  | PyVal.none => Except.error ()

/-- Truncation toward zero, as Python `int()` applied to a float.
`Rat.floor` is used instead of `⌊⌋` so that witnesses evaluate by kernel
reduction; the two agree (`ratFloor_eq_floor` below). -/
def ratTrunc (q : ℚ) : ℤ := if 0 ≤ q then Rat.floor q else -Rat.floor (-q)

/-- Python `int(v)`: numbers truncate toward zero, booleans become 0/1,
strings are parsed as integer literals, `None` raises `TypeError`. -/
def pyInt : PyVal → Except Unit ℤ
  | PyVal.num q => Except.ok (ratTrunc q)
  | PyVal.bool b => Except.ok (if b then 1 else 0)
  | PyVal.str s =>
      match parseIntStr s with
      | Option.some n => Except.ok n
      | Option.none => Except.error ()
  | PyVal.none => Except.error ()

/-- Python `v >= c` against a numeric literal: numbers and booleans compare
numerically, strings and `None` raise `TypeError`. -/
def pyGE (v : PyVal) (c : ℚ) : Except Unit Bool :=
  match v with
  | PyVal.num q => Except.ok (decide (c ≤ q))
  | PyVal.bool b => Except.ok (decide (c ≤ (if b then (1 : ℚ) else 0)))
  | _ => Except.error ()

/-- Python `int(round(q))` on a nonnegative-or-negative rational: round half
to even, which is what Python `round` does on floats. -/
def pyRound (q : ℚ) : ℤ :=
  if q - Rat.floor q < 1 / 2 then Rat.floor q
  else if 1 / 2 < q - Rat.floor q then Rat.floor q + 1
  else if Rat.floor q % 2 = 0 then Rat.floor q else Rat.floor q + 1

/-- The computable `Rat.floor` agrees with the order-theoretic `⌊⌋`. -/
theorem ratFloor_eq_floor (q : ℚ) : Rat.floor q = ⌊q⌋ := by
  rw [Rat.floor_def' q, Rat.floor_def]

example : pyRound 70 = 70 := by decide
example : pyRound (5 / 2) = 2 := by decide
example : pyRound (3 / 2) = 2 := by decide
example : strContains "blog.com" "g.co" = true := by decide
example : strLower "Kajaria Tiles" = "kajaria tiles" := by decide
example : pyFloat (PyVal.str "4.5") = Except.ok (9 / 2) := by decide

/-! URL parsing, modelling the parts of CPython `urllib.parse.urlsplit` the
repository relies on: sanitisation (strip C0-control/space at the ends,
remove tab/CR/LF everywhere), scheme splitting at the first colon when the
prefix is a valid scheme, and netloc extraction after `//` up to the first
of `/`, `?`, `#`, raising `ValueError` on an unbalanced square bracket in
the netloc.  The bracketed-IPv6-host validation added in newer CPython and
non-ASCII NFKC checks are not modelled; no claim depends on them. -/

/-- Characters allowed in a URL scheme after the first position. -/
def schemeChar (c : Char) : Bool := c.isAlphanum || c = '+' || c = '-' || c = '.'

/-- CPython url sanitisation performed at the start of `urlsplit`. -/
def sanitizeUrl (s : String) : List Char :=
  let l := s.data.dropWhile (fun c => c.toNat ≤ 32)
  let l := (l.reverse.dropWhile (fun c => c.toNat ≤ 32)).reverse
  l.filter (fun c => c ≠ '\t' ∧ c ≠ '\r' ∧ c ≠ '\n')

/-- Remainder of the url after removing a valid `scheme:` prefix, if any. -/
def dropSchemeL (l : List Char) : List Char :=
  match l.splitOn ':' with
  | pre :: r :: rs =>
      if pre ≠ [] ∧ pre.all schemeChar then List.intercalate [':'] (r :: rs) else l
  | _ => l

/-- Lowercased scheme of a url (`urlparse(url).scheme`), or `""` if none. -/
def urlScheme (url : String) : String :=
  match (sanitizeUrl url).splitOn ':' with
  | pre :: _ :: _ =>
      if pre ≠ [] ∧ pre.all schemeChar then ⟨pre.map Char.toLower⟩ else ""
  | _ => ""

/-- Netloc of a url (`urlparse(url).netloc`); `Option.none` models the
`ValueError` CPython raises on an unbalanced bracket in the netloc. -/
def pyUrlNetloc (url : String) : Option String :=
  match dropSchemeL (sanitizeUrl url) with
  | '/' :: '/' :: tail =>
      let nl := tail.takeWhile (fun c => c ≠ '/' ∧ c ≠ '?' ∧ c ≠ '#')
      if (nl.contains '[' && !nl.contains ']') || (nl.contains ']' && !nl.contains '[') then
        Option.none
      else Option.some ⟨nl⟩
  | _ => Option.some ""

/-- Path of a url (`urlparse(url).path`), ignoring the `;parameters` split
which cannot affect the asset-extension comparisons. -/
def urlPath (url : String) : String :=
  let rest := dropSchemeL (sanitizeUrl url)
  let afterNl : List Char :=
    match rest with
    | '/' :: '/' :: tail => tail.dropWhile (fun c => c ≠ '/' ∧ c ≠ '?' ∧ c ≠ '#')
    | _ => rest
  ⟨afterNl.takeWhile (fun c => c ≠ '?' ∧ c ≠ '#')⟩

/-! Embedding of `src/scraper/maps_scraper.py`. -/

/-- The fixed platform-domain denylist of `_valid_website_href`. -/
def BLACKLIST_DOMAINS : List String :=
  ["google.com", "googleusercontent.com", "gstatic.com", "fonts.gstatic.com",
   "accounts.google.com", "ggpht.com", "googleapis.com", "doubleclick.net", "g.co"]

/-- The fixed static-asset extension list of `_valid_website_href`. -/
def ASSET_EXTENSIONS : List String := [".woff", ".woff2", ".ttf", ".svg", ".css", ".js"]

/-- Embedding of `maps_scraper._valid_website_href`: reject empty strings and
strings not starting with the literal `"http"`, reject when urlparse raises
(try/except → False), reject when the lowercased netloc contains a denylist
entry, reject when the lowercased href ends with an asset extension. -/
def _valid_website_href (href : String) : Bool :=
  if href = "" ∨ ¬(strStartsWith href "http" = true) then false
  else
    match pyUrlNetloc href with
    | Option.none => false
    | Option.some nl =>
      let domain := strLower nl
      if BLACKLIST_DOMAINS.any (fun b => strContains domain b) then false
      else if ASSET_EXTENSIONS.any (fun e => strEndsWith (strLower href) e) then false
      else true

/-- The validity predicate as claim C9 words it: an actual HTTP(S) scheme
test and a path-based extension test.  Stated only to compare the claim
with the code; the code itself is `_valid_website_href` above. -/
def claimValidWebsiteHref (href : String) : Bool :=
  if href = "" then false
  else if ¬(urlScheme href = "http" ∨ urlScheme href = "https") then false
  else
    match pyUrlNetloc href with
    | Option.none => false
    | Option.some nl =>
      if BLACKLIST_DOMAINS.any (fun b => strContains (strLower nl) b) then false
      else if ASSET_EXTENSIONS.any (fun e => strEndsWith (strLower (urlPath href)) e) then false
      else true

example : _valid_website_href "https://example.com/" = true := by decide
example : _valid_website_href "http://blog.com/" = false := by decide
example : _valid_website_href "httpfoo" = true := by decide
example : claimValidWebsiteHref "httpfoo" = false := by decide
example : _valid_website_href "http://example.com/page?file=.css" = false := by decide
example : claimValidWebsiteHref "http://example.com/page?file=.css" = true := by decide
example : urlScheme "HTTPS://x" = "https" := by decide
example : pyUrlNetloc "http://Example.com/a" = Option.some "Example.com" := by decide

/-! Embedding of `src/run.py`. -/

/-- Brand keywords used for quick disqualification (`BRAND_KEYWORDS`). -/
def BRAND_KEYWORDS : List String :=
  ["kajaria", "somany", "nitco", "varmora", "orientbell", "experience centre",
   "boutique", "infinity"]

/-- Boolean signals `quick_site_check` extracts from a successfully fetched
page: a viewport meta tag, a meta description, an anchor whose href contains
`mailto:` or `contact`, and one of the known analytics markers in the html. -/
structure Page where
  hasViewport : Bool
  hasMetaDescription : Bool
  hasContactHref : Bool
  hasAnalytics : Bool
deriving DecidableEq

/-- Outcome of the network fetch `requests.get` performs inside
`quick_site_check`: an exception, or a response with a status code and the
page signals. -/
inductive FetchOutcome where
  | fetchError : FetchOutcome
  | response : ℤ → Page → FetchOutcome
deriving DecidableEq

/-- The `details` dict returned by `quick_site_check`: empty, an
`http_status` marker, an `error` marker (the exception text is environment
noise and not modelled), or the uncapped `site_score`. -/
inductive SiteDetails where
  | empty : SiteDetails
  | httpStatus : ℤ → SiteDetails
  | err : SiteDetails
  | siteScore : ℤ → SiteDetails
deriving DecidableEq

/-- Environment of the scoring run: the module flag `_WEBCHECK_AVAILABLE`
and the network, as a function from url to fetch outcome. -/
structure Env where
  webcheckAvailable : Bool
  fetch : String → FetchOutcome

/-- Embedding of `run.quick_site_check`.  The source wraps everything after
the availability test in try/except: a urlparse error or fetch error returns
`(0, {"error": ...})`, a non-200 status returns `(0, {"http_status": ...})`,
otherwise the additive heuristic sum is computed and the returned score is
`int(round(min(score, 20)))`, which on these integers is `min score 20`. -/
def quick_site_check (env : Env) (url : String) (timeout : ℤ) : ℤ × SiteDetails :=
  if ¬env.webcheckAvailable ∨ url = "" then (0, SiteDetails.empty)
  else
    match pyUrlNetloc url with
    | Option.none => (0, SiteDetails.err)
    | Option.some _ =>
      match env.fetch url with
      | FetchOutcome.fetchError => (0, SiteDetails.err)
      | FetchOutcome.response code p =>
        if code ≠ 200 then (0, SiteDetails.httpStatus code)
        else
          let s : ℤ := (if urlScheme url = "https" then 4 else 0)
            + (if p.hasViewport then 4 else 0)
            + (if p.hasMetaDescription then 3 else 0)
            + (if p.hasContactHref then 4 else 0)
            + (if p.hasAnalytics then 5 else 0)
          (min s 20, SiteDetails.siteScore s)

/-- The site-score formula exactly as the spec words it: five independently
awarded heuristics (HTTPS +4, viewport +4, meta description +3, contact +4,
analytics +5) summed and capped at 20.  Stated for comparison with
`quick_site_check`. -/
def specSiteAwards (url : String) (p : Page) : ℤ :=
  min ((if urlScheme url = "https" then 4 else 0)
    + (if p.hasViewport then 4 else 0)
    + (if p.hasMetaDescription then 3 else 0)
    + (if p.hasContactHref then 4 else 0)
    + (if p.hasAnalytics then 5 else 0)) 20

/-- Input record of `_compute_lead_score` / `classify_lead`: the keys the
function reads from the row dict; an absent key reads as `PyVal.none`,
exactly like an explicit `None` under `row.get`. -/
structure Row where
  business_name : PyVal
  rating : PyVal
  reviews : PyVal
  has_website : PyVal
  website : PyVal
  phone : PyVal
  phone_number : PyVal
  photos : PyVal
  photo_count : PyVal
  category : PyVal

/-- Line 43: `name = (row.get("business_name") or "").lower()`. -/
def nameOf (row : Row) : Except Unit String :=
  (pyStrOrEmpty row.business_name).map strLower

/-- Line 47: `website = (row.get("website") or "").strip()`. -/
def websiteOf (row : Row) : Except Unit String :=
  (pyStrOrEmpty row.website).map strTrim

/-- Line 48: `phone = (row.get("phone") or row.get("phone_number") or "").strip()`. -/
def phoneOf (row : Row) : Except Unit String :=
  (pyStrOrEmpty (pyOr row.phone row.phone_number)).map strTrim

/-- Line 50: `category = (row.get("category") or "").lower()`. -/
def categoryOf (row : Row) : Except Unit String :=
  (pyStrOrEmpty row.category).map strLower

/-- Lines 52-57: the brand-keyword loop.  For each keyword in order, a hit in
the lowercased name returns the name-match reason; otherwise, when the
website string is non-empty, a hit in its lowercased form returns the
website-match reason. -/
def brandLoop (name website : String) : List String → Option String
  | [] => Option.none
  | b :: rest =>
      if strContains name b then
        Option.some "DISQUALIFIED – Brand Showroom (name match)"
      else if website ≠ "" ∧ strContains (strLower website) b = true then
        Option.some "DISQUALIFIED – Brand Showroom (website match)"
      else brandLoop name website rest

/-- Line 60: `(not has_website) and rating >= 4.2 and reviews >= 50` with
Python short-circuit evaluation; the comparisons raise `TypeError` when the
value is a truthy string (`PyVal.str`). -/
def offlineDisq (has_website : Bool) (rating reviews : PyVal) : Except Unit Bool :=
  if has_website then Except.ok false
  else
    match pyGE rating (21 / 5) with
    | Except.error e => Except.error e
    | Except.ok false => Except.ok false
    | Except.ok true => pyGE reviews 50

/-- Lines 70-75: run the site check only when the stripped website string is
non-empty and the web-check capability is available; the site score is the
first component of `quick_site_check` (called with the default timeout 5). -/
def siteCheckTerm (env : Env) (website : String) : ℤ :=
  if website ≠ "" ∧ env.webcheckAvailable = true then (quick_site_check env website 5).1
  else 0

/-- Lines 63-113: the accumulation part of `_compute_lead_score`, reached
only when neither disqualifier fired.  Each numeric conversion sits in a
`try/except: pass`, so a conversion failure contributes 0. -/
def mainScore (env : Env) (has_website : Bool) (website phone category : String)
    (rating reviews photos : PyVal) : ℤ × String :=
  let s1 : ℚ := if has_website then 10 + ((min (siteCheckTerm env website) 20 : ℤ) : ℚ) else 0
  let s2 : ℚ := s1 + (match pyFloat rating with
    | Except.ok r => r / 5 * 20
    | Except.error _ => 0)
  let s3 : ℚ := s2 + (match pyFloat reviews with
    | Except.ok v => min (v / 100 * 20) 20
    | Except.error _ => 0)
  let s4 : ℚ := s3 + (if phone ≠ "" then 10 else 0)
  let s5 : ℚ := s4 + (match pyInt photos with
    | Except.ok p => min ((p : ℚ) / 10 * 10) 10
    | Except.error _ => 0)
  let s6 : ℚ := s5 + (if ["tile", "tiles", "ceramic"].any (fun k => strContains category k) then 10 else 0)
  (pyRound (max 0 (min s6 100)), "Score computed from maps signals")

/-- The body of `_compute_lead_score` after the field extractions. -/
def scoreCore (env : Env) (row : Row) (name website phone category : String) :
    Except Unit (ℤ × String) :=
  let rating := pyOr row.rating (PyVal.num 0)
  let reviews := pyOr row.reviews (PyVal.num 0)
  let has_website := truthy row.has_website
  let photos := pyOr (pyOr row.photos row.photo_count) (PyVal.num 0)
  match brandLoop name website BRAND_KEYWORDS with
  | Option.some r => Except.ok (0, r)
  | Option.none =>
    match offlineDisq has_website rating reviews with
    | Except.error e => Except.error e
    | Except.ok true => Except.ok (0, "DISQUALIFIED – Strong Offline Presence")
    | Except.ok false =>
        Except.ok (mainScore env has_website website phone category rating reviews photos)

/-- Embedding of `run._compute_lead_score`.  The four string-field
extractions happen first (any may raise on a truthy non-string value), then
the brand loop, the offline-strength disqualifier and the accumulation. -/
def _compute_lead_score (env : Env) (row : Row) : Except Unit (ℤ × String) :=
  match nameOf row with
  | Except.error e => Except.error e
  | Except.ok name =>
    match websiteOf row with
    | Except.error e => Except.error e
    | Except.ok website =>
      match phoneOf row with
      | Except.error e => Except.error e
      | Except.ok phone =>
        match categoryOf row with
        | Except.error e => Except.error e
        | Except.ok category => scoreCore env row name website phone category

/-- The f-string shape of the classifier explanations:
`f"{tier} opportunity (score={score}). {reason}"`. -/
def explText (tier : String) (score : ℤ) (reason : String) : String :=
  tier ++ " opportunity (score=" ++ toString score ++ "). " ++ reason

/-- Embedding of `run.classify_lead`, returning
`(lead_type, classification_reason, lead_score)`. -/
def classify_lead (env : Env) (row : Row) : Except Unit (String × String × ℤ) :=
  match _compute_lead_score env row with
  | Except.error e => Except.error e
  | Except.ok (score, reason) =>
    if score = 0 ∧ strStartsWith reason "DISQUALIFIED" = true then
      Except.ok (reason, reason, score)
    else if 70 ≤ score then
      Except.ok ("PURSUE – High Priority", explText "High" score reason, score)
    else if 40 ≤ score then
      Except.ok ("POTENTIAL – Medium Priority", explText "Medium" score reason, score)
    else
      Except.ok ("LOW – Low Priority", explText "Low" score reason, score)

/-! Concrete environments and rows used by the witnesses. -/

/-- Environment with web checks disabled (requests/bs4 unavailable). -/
def env0 : Env := ⟨false, fun _ => FetchOutcome.fetchError⟩

/-- A page carrying every heuristic signal. -/
def fullPage : Page := ⟨true, true, true, true⟩

/-- Environment with web checks enabled and every fetch succeeding. -/
def env200 : Env := ⟨true, fun _ => FetchOutcome.response 200 fullPage⟩

/-- Row with every key absent. -/
def emptyRow : Row :=
  ⟨PyVal.none, PyVal.none, PyVal.none, PyVal.none, PyVal.none,
   PyVal.none, PyVal.none, PyVal.none, PyVal.none, PyVal.none⟩

/-- The brand-disqualification scenario from the repository's test suite. -/
def kajariaRow : Row :=
  { emptyRow with
    business_name := PyVal.str "Kajaria Tiles Jaipur"
    rating := PyVal.num 4
    reviews := PyVal.num 10
    has_website := PyVal.bool false }

/-- The offline-strength boundary row: no website, rating 4.2, reviews 50. -/
def offlineRow : Row :=
  { emptyRow with
    business_name := PyVal.str "Some Local Store"
    rating := PyVal.num (21 / 5)
    reviews := PyVal.num 50
    has_website := PyVal.bool false }

/-- Same row with rating 4.19, which must not trigger the disqualifier. -/
def offlineRow419 : Row :=
  { offlineRow with rating := PyVal.num (419 / 100) }

/-- A non-disqualified row scoring exactly 70. -/
def row70 : Row :=
  { emptyRow with
    business_name := PyVal.str "Local Shop"
    rating := PyVal.num 5
    reviews := PyVal.num 50
    has_website := PyVal.bool true
    phone := PyVal.str "9999"
    photos := PyVal.num 10
    category := PyVal.str "Tile Shop" }

/-- Out-of-range row: rating 10 (beyond 5) and reviews -100. -/
def c8Row : Row :=
  { emptyRow with
    business_name := PyVal.str "Plain Shop"
    rating := PyVal.num 10
    reviews := PyVal.num (-100)
    has_website := PyVal.bool false
    phone := PyVal.str "123"
    photos := PyVal.num 0
    category := PyVal.str "tile shop" }

/-- Row whose rating is a truthy non-numeric string and whose
`has_website` is falsy: line 60 of run.py raises `TypeError` on it. -/
def badRatingRow : Row :=
  { emptyRow with
    business_name := PyVal.str "Local Store"
    rating := PyVal.str "unrated" }

example : _compute_lead_score env0 emptyRow
    = Except.ok (0, "Score computed from maps signals") := by decide
example : _compute_lead_score env0 kajariaRow
    = Except.ok (0, "DISQUALIFIED – Brand Showroom (name match)") := by decide
example : _compute_lead_score env0 offlineRow
    = Except.ok (0, "DISQUALIFIED – Strong Offline Presence") := by decide
example : _compute_lead_score env0 offlineRow419
    = Except.ok (27, "Score computed from maps signals") := by decide
example : _compute_lead_score env0 row70
    = Except.ok (70, "Score computed from maps signals") := by decide
example : _compute_lead_score env0 c8Row
    = Except.ok (40, "Score computed from maps signals") := by decide
example : _compute_lead_score env0 badRatingRow = Except.error () := by decide
example : classify_lead env0 row70
    = Except.ok ("PURSUE – High Priority",
        "High opportunity (score=70). Score computed from maps signals", 70) := by decide
example : quick_site_check env200 "https://example.com" 5
    = (20, SiteDetails.siteScore 20) := by decide

/-! Helper lemmas. -/

theorem pyRound_nonneg (q : ℚ) (h : 0 ≤ q) : 0 ≤ pyRound q := by
  have hf : 0 ≤ Rat.floor q := by
    rw [ratFloor_eq_floor]; exact Int.floor_nonneg.mpr h
  unfold pyRound
  split_ifs <;> omega

theorem pyRound_le (q : ℚ) (n : ℤ) (h : q ≤ (n : ℚ)) : pyRound q ≤ n := by
  have hfl : Rat.floor q ≤ n := by
    rw [ratFloor_eq_floor]
    have h1 : ⌊q⌋ ≤ ⌊(n : ℚ)⌋ := Int.floor_le_floor h
    simpa using h1
  have hplus : ¬(q - (Rat.floor q : ℚ) < 1 / 2) → Rat.floor q + 1 ≤ n := by
    intro hnl
    have h2 : (1 : ℚ) / 2 ≤ q - (Rat.floor q : ℚ) := not_lt.mp hnl
    have h3 : ((Rat.floor q : ℤ) : ℚ) < (n : ℚ) := by linarith
    have h4 : Rat.floor q < n := by exact_mod_cast h3
    omega
  unfold pyRound
  split_ifs with h1 h2 h3
  · exact hfl
  · exact hplus h1
  · exact hfl
  · exact hplus h1

theorem mainScore_fst_bounds (env : Env) (hw : Bool) (website phone category : String)
    (rating reviews photos : PyVal) :
    0 ≤ (mainScore env hw website phone category rating reviews photos).1 ∧
      (mainScore env hw website phone category rating reviews photos).1 ≤ 100 := by
  simp only [mainScore]
  constructor
  · exact pyRound_nonneg _ (le_max_left _ _)
  · refine pyRound_le _ 100 ?_
    have h100 : ((100 : ℤ) : ℚ) = (100 : ℚ) := by norm_num
    rw [h100]
    exact max_le (by norm_num) (min_le_right _ _)

theorem pyOr_num_zero (r : ℚ) : pyOr (PyVal.num r) (PyVal.num 0) = PyVal.num r := by
  by_cases h : r = 0
  · subst h; rfl
  · simp [pyOr, truthy, h]

theorem pyOr_chain_num (p : ℚ) :
    pyOr (pyOr (PyVal.num p) PyVal.none) (PyVal.num 0) = PyVal.num p := by
  by_cases h : p = 0
  · subst h; rfl
  · simp [pyOr, truthy, h]

theorem offlineDisq_num_true (r v : ℚ) (h1 : 21 / 5 ≤ r) (h2 : 50 ≤ v) :
    offlineDisq false (PyVal.num r) (PyVal.num v) = Except.ok true := by
  simp [offlineDisq, pyGE, h1, h2]

theorem offlineDisq_num_false (hw : Bool) (r v : ℚ)
    (h : ¬(hw = false ∧ 21 / 5 ≤ r ∧ 50 ≤ v)) :
    offlineDisq hw (PyVal.num r) (PyVal.num v) = Except.ok false := by
  cases hw with
  | true => rfl
  | false =>
    have h' : ¬((21 : ℚ) / 5 ≤ r ∧ (50 : ℚ) ≤ v) := fun hc => h ⟨rfl, hc.1, hc.2⟩
    by_cases h1 : (21 : ℚ) / 5 ≤ r
    · have h2 : ¬(50 : ℚ) ≤ v := fun hv => h' ⟨h1, hv⟩
      simp [offlineDisq, pyGE, h1, h2]
    · simp [offlineDisq, pyGE, h1]

theorem brandLoop_finds (name website : String) :
    ∀ l : List String,
      ((∃ b ∈ l, strContains name b = true) ∨
        (website ≠ "" ∧ ∃ b ∈ l, strContains (strLower website) b = true)) →
      ∃ r, brandLoop name website l = Option.some r ∧
        (r = "DISQUALIFIED – Brand Showroom (name match)" ∨
         r = "DISQUALIFIED – Brand Showroom (website match)") := by
  intro l
  induction l with
  | nil =>
    rintro (⟨b, hb, _⟩ | ⟨_, b, hb, _⟩) <;> simp at hb
  | cons a t ih =>
    intro h
    by_cases h1 : strContains name a = true
    · refine ⟨_, ?_, Or.inl rfl⟩
      simp [brandLoop, h1]
    · by_cases h2 : website ≠ "" ∧ strContains (strLower website) a = true
      · refine ⟨_, ?_, Or.inr rfl⟩
        simp only [brandLoop]
        rw [if_neg (by simpa using h1), if_pos h2]
      · have ht : (∃ b ∈ t, strContains name b = true) ∨
            (website ≠ "" ∧ ∃ b ∈ t, strContains (strLower website) b = true) := by
          rcases h with ⟨b, hb, hc⟩ | ⟨hw, b, hb, hc⟩
          · rcases List.mem_cons.mp hb with rfl | hbt
            · exact absurd hc h1
            · exact Or.inl ⟨b, hbt, hc⟩
          · rcases List.mem_cons.mp hb with rfl | hbt
            · exact absurd ⟨hw, hc⟩ h2
            · exact Or.inr ⟨hw, b, hbt, hc⟩
        obtain ⟨r, hr, hor⟩ := ih ht
        refine ⟨r, ?_, hor⟩
        simp only [brandLoop]
        rw [if_neg (by simpa using h1), if_neg h2]
        exact hr

theorem string_data_append (a b : String) : (a ++ b).data = a.data ++ b.data := rfl

theorem string_append_assoc (a b c : String) : a ++ b ++ c = a ++ (b ++ c) :=
  String.append_assoc a b c

theorem strContains_append_mid (a b c : String) : strContains (a ++ b ++ c) b = true := by
  apply decide_eq_true
  refine ⟨a.data, c.data, ?_⟩
  simp [string_data_append, List.append_assoc]

theorem strContains_append_right (a b : String) : strContains (a ++ b) b = true := by
  apply decide_eq_true
  exact ⟨a.data, [], by simp [string_data_append]⟩

theorem strContains_append_left (a b : String) : strContains (a ++ b) a = true := by
  apply decide_eq_true
  exact ⟨[], b.data, by simp [string_data_append]⟩

theorem explText_contains_score (t : String) (s : ℤ) (r : String) :
    strContains (explText t s r) (toString s) = true := by
  have he : explText t s r = (t ++ " opportunity (score=") ++ toString s ++ ("). " ++ r) := by
    unfold explText
    rw [string_append_assoc ((t ++ " opportunity (score=") ++ toString s) "). " r]
  rw [he]
  exact strContains_append_mid _ _ _

theorem explText_contains_reason (t : String) (s : ℤ) (r : String) :
    strContains (explText t s r) r = true := by
  unfold explText
  exact strContains_append_right _ _

theorem explText_contains_tier (t : String) (s : ℤ) (r : String) :
    strContains (explText t s r) t = true := by
  have he : explText t s r = t ++ (" opportunity (score=" ++ toString s ++ "). " ++ r) := by
    unfold explText
    rw [string_append_assoc t, string_append_assoc t, string_append_assoc t]
  rw [he]
  exact strContains_append_left _ _

theorem compute_eq_core (env : Env) (row : Row) (nm ws p c : String)
    (hn : nameOf row = Except.ok nm) (hw : websiteOf row = Except.ok ws)
    (hp : phoneOf row = Except.ok p) (hc : categoryOf row = Except.ok c) :
    _compute_lead_score env row = scoreCore env row nm ws p c := by
  unfold _compute_lead_score
  rw [hn, hw, hp, hc]

theorem compute_eq_main (env : Env) (row : Row) (nm ws p c : String) (r v : ℚ)
    (hn : nameOf row = Except.ok nm) (hw : websiteOf row = Except.ok ws)
    (hp : phoneOf row = Except.ok p) (hc : categoryOf row = Except.ok c)
    (hr : row.rating = PyVal.num r) (hv : row.reviews = PyVal.num v)
    (hbrand : brandLoop nm ws BRAND_KEYWORDS = Option.none)
    (hnod : ¬(truthy row.has_website = false ∧ 21 / 5 ≤ r ∧ 50 ≤ v)) :
    _compute_lead_score env row =
      Except.ok (mainScore env (truthy row.has_website) ws p c (PyVal.num r) (PyVal.num v)
        (pyOr (pyOr row.photos row.photo_count) (PyVal.num 0))) := by
  have hre : pyOr row.rating (PyVal.num 0) = PyVal.num r := by rw [hr]; exact pyOr_num_zero r
  have hve : pyOr row.reviews (PyVal.num 0) = PyVal.num v := by rw [hv]; exact pyOr_num_zero v
  rw [compute_eq_core env row nm ws p c hn hw hp hc]
  simp only [scoreCore]
  rw [hre, hve, hbrand]
  cases hhw : truthy row.has_website with
  | false =>
    rw [offlineDisq_num_false false r v (by rw [hhw] at hnod; exact fun hx => hnod ⟨rfl, hx.2⟩)]
  | true =>
    rw [offlineDisq_num_false true r v (by rintro ⟨hcontra, -⟩; cases hcontra)]

/-! Claim theorems. -/

/-- C1: whenever `_compute_lead_score` returns a result, the score is an
integer in [0, 100]; the accumulated rational total is clamped to [0, 100]
and rounded (`pyRound`) before being returned, and the two disqualifying
returns carry 0. -/
theorem score_bounds (env : Env) (row : Row) (res : ℤ × String)
    (h : _compute_lead_score env row = Except.ok res) :
    0 ≤ res.1 ∧ res.1 ≤ 100 := by
  unfold _compute_lead_score at h
  split at h
  · simp at h
  · split at h
    · simp at h
    · split at h
      · simp at h
      · split at h
        · simp at h
        · simp only [scoreCore] at h
          split at h
          · injection h with h'
            subst h'
            exact ⟨le_refl 0, by norm_num⟩
          · split at h
            · simp at h
            · injection h with h'
              subst h'
              exact ⟨le_refl 0, by norm_num⟩
            · injection h with h'
              subst h'
              exact mainScore_fst_bounds _ _ _ _ _ _ _ _

/-- Witness for C1 at the all-defaults row. -/
theorem score_bounds_witness : 0 ≤ (0 : ℤ) ∧ (0 : ℤ) ≤ 100 :=
  score_bounds env0 emptyRow (0, "Score computed from maps signals") (by decide)

/-- C2: a brand-keyword hit in the lowercased business name or in the
lowercased non-empty website string short-circuits everything else: for any
rating, reviews, has_website, photos values whatsoever (and any phone and
category values that extract), the result is score 0 with one of the two
"DISQUALIFIED – Brand Showroom" reasons. -/
theorem brand_disqualifies (env : Env) (row : Row) (nm ws : String)
    (hn : nameOf row = Except.ok nm) (hw : websiteOf row = Except.ok ws)
    (hph : ∃ p, phoneOf row = Except.ok p) (hct : ∃ c, categoryOf row = Except.ok c)
    (hmatch : (∃ b ∈ BRAND_KEYWORDS, strContains nm b = true) ∨
      (ws ≠ "" ∧ ∃ b ∈ BRAND_KEYWORDS, strContains (strLower ws) b = true)) :
    ∃ r, _compute_lead_score env row = Except.ok (0, r) ∧
      (r = "DISQUALIFIED – Brand Showroom (name match)" ∨
       r = "DISQUALIFIED – Brand Showroom (website match)") := by
  obtain ⟨p, hp⟩ := hph
  obtain ⟨c, hc⟩ := hct
  obtain ⟨r, hbr, hor⟩ := brandLoop_finds nm ws BRAND_KEYWORDS hmatch
  refine ⟨r, ?_, hor⟩
  rw [compute_eq_core env row nm ws p c hn hw hp hc]
  simp only [scoreCore]
  rw [hbr]

/-- Witness for C2: the Kajaria scenario from the repository's tests. -/
theorem brand_disqualifies_witness :
    nameOf kajariaRow = Except.ok "kajaria tiles jaipur" ∧
    ∃ r, _compute_lead_score env0 kajariaRow = Except.ok (0, r) ∧
      (r = "DISQUALIFIED – Brand Showroom (name match)" ∨
       r = "DISQUALIFIED – Brand Showroom (website match)") :=
  ⟨by decide,
   brand_disqualifies env0 kajariaRow "kajaria tiles jaipur" "" (by decide) (by decide)
     ⟨"", by decide⟩ ⟨"", by decide⟩
     (Or.inl ⟨"kajaria", by decide, by decide⟩)⟩

/-- C3: with no brand match and no website, numeric rating and reviews
trigger the offline-strength disqualifier exactly when `rating ≥ 4.2` and
`reviews ≥ 50` (both inclusive); below either threshold the offline reason
is never produced. -/
theorem offline_disqualification (env : Env) (row : Row) (nm ws p c : String) (r v : ℚ)
    (hn : nameOf row = Except.ok nm) (hw : websiteOf row = Except.ok ws)
    (hp : phoneOf row = Except.ok p) (hc : categoryOf row = Except.ok c)
    (hr : row.rating = PyVal.num r) (hv : row.reviews = PyVal.num v)
    (hhw : truthy row.has_website = false)
    (hbrand : brandLoop nm ws BRAND_KEYWORDS = Option.none) :
    (21 / 5 ≤ r ∧ 50 ≤ v →
      _compute_lead_score env row = Except.ok (0, "DISQUALIFIED – Strong Offline Presence")) ∧
    (r < 21 / 5 ∨ v < 50 →
      ∀ s reason, _compute_lead_score env row = Except.ok (s, reason) →
        reason ≠ "DISQUALIFIED – Strong Offline Presence") := by
  have hre : pyOr row.rating (PyVal.num 0) = PyVal.num r := by rw [hr]; exact pyOr_num_zero r
  have hve : pyOr row.reviews (PyVal.num 0) = PyVal.num v := by rw [hv]; exact pyOr_num_zero v
  constructor
  · rintro ⟨h1, h2⟩
    rw [compute_eq_core env row nm ws p c hn hw hp hc]
    simp only [scoreCore]
    rw [hre, hve, hbrand, hhw, offlineDisq_num_true r v h1 h2]
  · intro hlt s reason heq hcontra
    have hnod : ¬(truthy row.has_website = false ∧ 21 / 5 ≤ r ∧ 50 ≤ v) := by
      rintro ⟨-, hge, hgv⟩
      rcases hlt with hx | hx
      · exact absurd hge (not_le.mpr hx)
      · exact absurd hgv (not_le.mpr hx)
    rw [compute_eq_main env row nm ws p c r v hn hw hp hc hr hv hbrand hnod] at heq
    injection heq with h'
    have hR : "Score computed from maps signals" = reason := congrArg Prod.snd h'
    rw [← hR] at hcontra
    exact absurd hcontra (by decide)

/-- Witness for C3: the 4.2/50 boundary row triggers the disqualifier. -/
theorem offline_disqualification_witness :
    _compute_lead_score env0 offlineRow
      = Except.ok (0, "DISQUALIFIED – Strong Offline Presence") :=
  (offline_disqualification env0 offlineRow "some local store" "" "" "" (21 / 5) 50
    (by decide) (by decide) (by decide) (by decide) (by decide) (by decide) (by decide)
    (by decide)).1 ⟨le_refl _, le_refl _⟩

theorem classify_eq (env : Env) (row : Row) (s : ℤ) (reason : String)
    (hs : _compute_lead_score env row = Except.ok (s, reason)) :
    classify_lead env row =
      (if s = 0 ∧ strStartsWith reason "DISQUALIFIED" = true then
        Except.ok (reason, reason, s)
      else if 70 ≤ s then
        Except.ok ("PURSUE – High Priority", explText "High" s reason, s)
      else if 40 ≤ s then
        Except.ok ("POTENTIAL – Medium Priority", explText "Medium" s reason, s)
      else
        Except.ok ("LOW – Low Priority", explText "Low" s reason, s)) := by
  unfold classify_lead
  rw [hs]

/-- C4: for a non-disqualified scoring result the classifier applies the
fixed thresholds with ≥/< semantics (score ≥ 70 high priority, 40 ≤ score
< 70 medium, score < 40 low), and every explanation embeds the tier label
of its category, the decimal rendering of the score, and the scorer's
reason text. -/
theorem classify_thresholds (env : Env) (row : Row) (s : ℤ) (reason : String)
    (hs : _compute_lead_score env row = Except.ok (s, reason))
    (hnd : ¬(s = 0 ∧ strStartsWith reason "DISQUALIFIED" = true)) :
    (70 ≤ s → classify_lead env row =
      Except.ok ("PURSUE – High Priority", explText "High" s reason, s)) ∧
    (40 ≤ s ∧ s < 70 → classify_lead env row =
      Except.ok ("POTENTIAL – Medium Priority", explText "Medium" s reason, s)) ∧
    (s < 40 → classify_lead env row =
      Except.ok ("LOW – Low Priority", explText "Low" s reason, s)) ∧
    (∀ t, strContains (explText t s reason) (toString s) = true ∧
      strContains (explText t s reason) reason = true ∧
      strContains (explText t s reason) t = true) ∧
    strContains "PURSUE – High Priority" "High" = true ∧
    strContains "POTENTIAL – Medium Priority" "Medium" = true ∧
    strContains "LOW – Low Priority" "Low" = true := by
  refine ⟨?_, ?_, ?_,
    fun t => ⟨explText_contains_score t s reason, explText_contains_reason t s reason,
      explText_contains_tier t s reason⟩,
    by decide, by decide, by decide⟩
  · intro h70
    rw [classify_eq env row s reason hs, if_neg hnd, if_pos h70]
  · rintro ⟨h40, h70⟩
    rw [classify_eq env row s reason hs, if_neg hnd, if_neg (not_le.mpr h70), if_pos h40]
  · intro h40
    rw [classify_eq env row s reason hs, if_neg hnd,
      if_neg (not_le.mpr (lt_trans h40 (by norm_num))), if_neg (not_le.mpr h40)]

/-- Witness for C4: a concrete score-70 row lands exactly on the
high-priority boundary. -/
theorem classify_thresholds_witness :
    _compute_lead_score env0 row70 = Except.ok (70, "Score computed from maps signals") ∧
    classify_lead env0 row70 =
      Except.ok ("PURSUE – High Priority",
        explText "High" 70 "Score computed from maps signals", 70) :=
  ⟨by decide,
   (classify_thresholds env0 row70 70 "Score computed from maps signals" (by decide)
     (by rintro ⟨hc, -⟩; exact absurd hc (by decide))).1 (by decide)⟩

/-- C5: when the scorer returns score exactly 0 with a reason starting with
"DISQUALIFIED", the classifier propagates that reason verbatim as both
category and explanation and carries the score 0 through, bypassing the
priority thresholds. -/
theorem disqualification_propagates (env : Env) (row : Row) (reason : String)
    (h : _compute_lead_score env row = Except.ok (0, reason))
    (hd : strStartsWith reason "DISQUALIFIED" = true) :
    classify_lead env row = Except.ok (reason, reason, 0) := by
  rw [classify_eq env row 0 reason h, if_pos ⟨rfl, hd⟩]

/-- Witness for C5 at the Kajaria row. -/
theorem disqualification_propagates_witness :
    classify_lead env0 kajariaRow =
      Except.ok ("DISQUALIFIED – Brand Showroom (name match)",
        "DISQUALIFIED – Brand Showroom (name match)", 0) :=
  disqualification_propagates env0 kajariaRow "DISQUALIFIED – Brand Showroom (name match)"
    (by decide) (by decide)

/-- C10: a score of 0 with the ordinary reason (no disqualifier fired) is
not treated as disqualified: the classifier's disqualification branch
requires the reason to start with "DISQUALIFIED", so such a record is
classified low-priority with the ordinary explanation. -/
theorem zero_score_not_disqualified (env : Env) (row : Row)
    (h : _compute_lead_score env row = Except.ok (0, "Score computed from maps signals")) :
    classify_lead env row =
      Except.ok ("LOW – Low Priority",
        explText "Low" 0 "Score computed from maps signals", 0) := by
  rw [classify_eq env row 0 "Score computed from maps signals" h]
  rw [if_neg (by rintro ⟨-, hc⟩; exact absurd hc (by decide)),
    if_neg (by decide), if_neg (by decide)]

/-- Witness for C10: the all-defaults row scores 0 without a disqualifier
and is classified low-priority. -/
theorem zero_score_not_disqualified_witness :
    classify_lead env0 emptyRow =
      Except.ok ("LOW – Low Priority",
        explText "Low" 0 "Score computed from maps signals", 0) :=
  zero_score_not_disqualified env0 emptyRow (by decide)

theorem awards_nonneg (url : String) (p : Page) :
    0 ≤ (if urlScheme url = "https" then (4 : ℤ) else 0)
      + (if p.hasViewport then 4 else 0)
      + (if p.hasMetaDescription then 3 else 0)
      + (if p.hasContactHref then 4 else 0)
      + (if p.hasAnalytics then 5 else 0) := by
  split_ifs <;> norm_num

/-- C6: `quick_site_check` is total over every fetch outcome (the Python
try/except absorbs any error), its score is always in [0, 20], it returns 0
whenever the capability is disabled, the url is empty, urlparse raises, the
fetch raises, or the status is not 200, and on a 200 response the score is
exactly the five additive heuristic awards capped at 20 (`specSiteAwards`). -/
theorem site_check_contract (env : Env) (url : String) (t : ℤ) :
    0 ≤ (quick_site_check env url t).1 ∧ (quick_site_check env url t).1 ≤ 20 ∧
    ((env.webcheckAvailable = false ∨ url = "" ∨ pyUrlNetloc url = Option.none ∨
      env.fetch url = FetchOutcome.fetchError ∨
      (∃ code p, env.fetch url = FetchOutcome.response code p ∧ code ≠ 200)) →
      (quick_site_check env url t).1 = 0) ∧
    (∀ p, env.webcheckAvailable = true → ¬url = "" → pyUrlNetloc url ≠ Option.none →
      env.fetch url = FetchOutcome.response 200 p →
      (quick_site_check env url t).1 = specSiteAwards url p) := by
  by_cases hav : env.webcheckAvailable = true
  case neg =>
    have hav' : env.webcheckAvailable = false := by
      cases h : env.webcheckAvailable
      · rfl
      · exact absurd h hav
    exact ⟨by simp [quick_site_check, hav'], by simp [quick_site_check, hav'],
      fun _ => by simp [quick_site_check, hav'],
      fun p htrue => absurd htrue hav⟩
  case pos =>
    by_cases hurl : url = ""
    · exact ⟨by simp [quick_site_check, hurl], by simp [quick_site_check, hurl],
        fun _ => by simp [quick_site_check, hurl],
        fun p _ hne => absurd hurl hne⟩
    · cases hnl : pyUrlNetloc url with
      | none =>
        exact ⟨by simp [quick_site_check, hav, hurl, hnl],
          by simp [quick_site_check, hav, hurl, hnl],
          fun _ => by simp [quick_site_check, hav, hurl, hnl],
          fun p _ _ hnn => absurd rfl hnn⟩
      | some nl =>
        cases hf : env.fetch url with
        | fetchError =>
          exact ⟨by simp [quick_site_check, hav, hurl, hnl, hf],
            by simp [quick_site_check, hav, hurl, hnl, hf],
            fun _ => by simp [quick_site_check, hav, hurl, hnl, hf],
            fun p _ _ _ hresp => FetchOutcome.noConfusion hresp⟩
        | response code p =>
          by_cases hcode : code = 200
          · subst hcode
            have hval : (quick_site_check env url t).1 = specSiteAwards url p := by
              simp [quick_site_check, hav, hurl, hnl, hf, specSiteAwards]
            refine ⟨?_, ?_, ?_, ?_⟩
            · rw [hval]
              exact le_min (awards_nonneg url p) (by norm_num)
            · rw [hval]
              exact min_le_right _ _
            · rintro (h | h | h | h | ⟨code', p', heq, hne⟩)
              · rw [hav] at h; exact Bool.noConfusion h
              · exact absurd h hurl
              · exact Option.noConfusion h
              · exact FetchOutcome.noConfusion h
              · injection heq with hc _
                exact absurd hc.symm hne
            · intro p' _ _ _ hresp
              injection hresp with _ hp'
              rw [← hp']
              exact hval
          · exact ⟨by simp [quick_site_check, hav, hurl, hnl, hf, hcode],
              by simp [quick_site_check, hav, hurl, hnl, hf, hcode],
              fun _ => by simp [quick_site_check, hav, hurl, hnl, hf, hcode],
              fun p' _ _ _ hresp => by
                injection hresp with hc _
                exact absurd hc hcode⟩

/-- Witness for C6: full-signal page over HTTPS scores exactly the capped
award sum. -/
theorem site_check_contract_witness :
    0 ≤ (quick_site_check env200 "https://example.com" 5).1 ∧
    (quick_site_check env200 "https://example.com" 5).1 ≤ 20 ∧
    (quick_site_check env200 "https://example.com" 5).1
      = specSiteAwards "https://example.com" fullPage := by
  obtain ⟨h1, h2, _, h4⟩ := site_check_contract env200 "https://example.com" 5
  exact ⟨h1, h2, h4 fullPage rfl (by decide) (by decide) rfl⟩

/-- C7 (code bug): `_compute_lead_score` is not total.  A record whose
rating is a truthy non-numeric string and whose `has_website` is falsy
reaches the unguarded comparison `rating >= 4.2` (run.py line 60), which
raises `TypeError`; the other numeric conversions are wrapped in
`try/except`, and the spec requires unparseable numerics to contribute zero
rather than propagate. -/
theorem compute_raises_on_string_rating :
    _compute_lead_score env0 badRatingRow = Except.error () ∧
    classify_lead env0 badRatingRow = Except.error () :=
  ⟨by decide, by decide⟩

/-- C8: out-of-range numeric inputs are not rejected: with no disqualifier
firing, the returned score is exactly `pyRound` of the clamp to [0, 100] of
a sum in which the rating term is the unclamped `(r / 5) * 20` (exceeding 20
when r > 5) and the reviews term is `min ((v / 100) * 20) 20` with no lower
clamp (negative for negative reviews); only the final total is clamped. -/
theorem out_of_range_flow (env : Env) (row : Row) (nm ws ph c : String) (r v p : ℚ)
    (hn : nameOf row = Except.ok nm) (hw : websiteOf row = Except.ok ws)
    (hp : phoneOf row = Except.ok ph) (hc : categoryOf row = Except.ok c)
    (hr : row.rating = PyVal.num r) (hv : row.reviews = PyVal.num v)
    (hphoto : row.photos = PyVal.num p) (hpc : row.photo_count = PyVal.none)
    (hbrand : brandLoop nm ws BRAND_KEYWORDS = Option.none)
    (hnod : ¬(truthy row.has_website = false ∧ 21 / 5 ≤ r ∧ 50 ≤ v)) :
    _compute_lead_score env row = Except.ok
      (pyRound (max 0 (min
        ((if truthy row.has_website then
            (10 : ℚ) + ((min (siteCheckTerm env ws) 20 : ℤ) : ℚ) else 0)
          + r / 5 * 20
          + min (v / 100 * 20) 20
          + (if ph ≠ "" then (10 : ℚ) else 0)
          + min ((ratTrunc p : ℚ) / 10 * 10) 10
          + (if ["tile", "tiles", "ceramic"].any (fun k => strContains c k) then (10 : ℚ)
             else 0))
        100)),
       "Score computed from maps signals") := by
  rw [compute_eq_main env row nm ws ph c r v hn hw hp hc hr hv hbrand hnod]
  have hphs : pyOr (pyOr row.photos row.photo_count) (PyVal.num 0) = PyVal.num p := by
    rw [hphoto, hpc]; exact pyOr_chain_num p
  rw [hphs]
  simp only [mainScore, pyFloat, pyInt]

/-- Witness for C8: rating 10 and reviews -100 flow through (40 = 0 + 40
rating - 20 reviews + 10 phone + 0 photos + 10 category). -/
theorem out_of_range_flow_witness :
    _compute_lead_score env0 c8Row = Except.ok (40, "Score computed from maps signals") := by
  have h := out_of_range_flow env0 c8Row "plain shop" "" "123" "tile shop" 10 (-100) 0
    (by decide) (by decide) (by decide) (by decide) (by decide) (by decide) (by decide)
    (by decide) (by decide) (by decide)
  rw [h]
  decide

/-- C9 counterexample: the code accepts "httpfoo", which does not begin
with an HTTP(S) scheme, and rejects "http://example.com/page?file=.css",
whose path ends with no asset extension; the claim as stated fails both
ways. -/
theorem valid_href_claim_counterexample :
    _valid_website_href "httpfoo" = true ∧
    claimValidWebsiteHref "httpfoo" = false ∧
    _valid_website_href "http://example.com/page?file=.css" = false ∧
    claimValidWebsiteHref "http://example.com/page?file=.css" = true := by
  exact ⟨by decide, by decide, by decide, by decide⟩

/-- C9 amended: `_valid_website_href` accepts exactly the non-empty hrefs
that start with the literal case-sensitive prefix "http", whose netloc
parses (no unbalanced bracket) and, lowercased, contains no denylist entry,
and whose whole lowercased href (not just the path) ends with no
static-asset extension. -/
theorem valid_href_characterization (href : String) :
    _valid_website_href href = true ↔
      href ≠ "" ∧ strStartsWith href "http" = true ∧
      (∃ nl, pyUrlNetloc href = Option.some nl ∧
        ∀ b ∈ BLACKLIST_DOMAINS, strContains (strLower nl) b = false) ∧
      ∀ e ∈ ASSET_EXTENSIONS, strEndsWith (strLower href) e = false := by
  unfold _valid_website_href
  by_cases h0 : href = "" ∨ ¬(strStartsWith href "http" = true)
  · rw [if_pos h0]
    constructor
    · intro hcontra; exact Bool.noConfusion hcontra
    · rintro ⟨hne, hsw, -, -⟩
      rcases h0 with h | h
      · exact absurd h hne
      · exact absurd hsw h
  · rw [if_neg h0]
    push_neg at h0
    obtain ⟨hne, hsw⟩ := h0
    cases hnl : pyUrlNetloc href with
    | none =>
      constructor
      · intro hcontra; exact Bool.noConfusion hcontra
      · rintro ⟨-, -, ⟨nl, hnl', -⟩, -⟩
        exact Option.noConfusion hnl'
    | some nl =>
      show (if (BLACKLIST_DOMAINS.any fun b => strContains (strLower nl) b) = true then false
        else if (ASSET_EXTENSIONS.any fun e => strEndsWith (strLower href) e) = true then false
        else true) = true ↔ _
      by_cases hb : BLACKLIST_DOMAINS.any (fun b => strContains (strLower nl) b) = true
      · rw [if_pos hb]
        constructor
        · intro hcontra; exact Bool.noConfusion hcontra
        · rintro ⟨-, -, ⟨nl', hnl', hall⟩, -⟩
          injection hnl' with hnl2
          subst hnl2
          obtain ⟨b, hbmem, hbc⟩ := List.any_eq_true.mp hb
          rw [hall b hbmem] at hbc
          exact Bool.noConfusion hbc
      · rw [if_neg hb]
        by_cases he : ASSET_EXTENSIONS.any (fun e => strEndsWith (strLower href) e) = true
        · rw [if_pos he]
          constructor
          · intro hcontra; exact Bool.noConfusion hcontra
          · rintro ⟨-, -, -, hall⟩
            obtain ⟨e, hemem, hec⟩ := List.any_eq_true.mp he
            rw [hall e hemem] at hec
            exact Bool.noConfusion hec
        · rw [if_neg he]
          constructor
          · intro _
            refine ⟨hne, hsw, ⟨nl, rfl, ?_⟩, ?_⟩
            · intro b hbmem
              cases hB : strContains (strLower nl) b with
              | false => rfl
              | true => exact absurd (List.any_eq_true.mpr ⟨b, hbmem, hB⟩) hb
            · intro e hemem
              cases hE : strEndsWith (strLower href) e with
              | false => rfl
              | true => exact absurd (List.any_eq_true.mpr ⟨e, hemem, hE⟩) he
          · intro _; rfl

/-- Witness for the C9 characterization at an ordinary accepted href. -/
theorem valid_href_characterization_witness :
    _valid_website_href "https://example.com/" = true :=
  (valid_href_characterization "https://example.com/").mpr
    ⟨by decide, by decide, ⟨"example.com", by decide, by decide⟩, by decide⟩

end LeadLens
